import Mathlib

/-!
Verification of the geocoding / classification / merge / cache pipeline of the
raleigh-permits repository, as a shallow embedding in Lean 4.

Modelling conventions, fixed once for the whole file:
* Python `None` and absent dictionary keys are `Option.none`; `x or y` on
  strings maps the empty string to the fallback (`pyOrS`), and on the unit
  count it maps `0` to the fallback `1` (`pyUnits`), matching Python
  truthiness.
* Python floats are embedded as `ℚ` (exact arithmetic).  The transcendental
  `haversine_distance` is kept abstract: functions that call it take a
  distance oracle `dist : ℚ → ℚ → ℚ → ℚ → ℚ` as a parameter.  In
  `get_zip_for_coords` the source compares `sqrt (dx^2 + dy^2) < r` and
  `sqrt ... < best`; since `sqrt` is strictly monotone on nonnegatives and
  every stored radius is positive, the embedding compares the squares, which
  preserves every strict comparison the source makes.
* The file cache is a map from key to an optional stored file; a stored file
  carries an `mtime` (seconds) and a content that is `some v` when the file
  holds the JSON serialization of `v` (which `json.load` parses back to `v`)
  and `none` when the file content is corrupt or partially written, on which
  `json.load` raises — embedded as `Except.error`.
* `datetime.fromtimestamp` / `strftime` are kept abstract as an oracle
  `dateFn : ℚ → Option DateEmb` (`none` models the caught
  `ValueError`/`TypeError`).
-/

/-! ## String helpers (Python `.lower()`, `.strip()`, `in`, `or` on strings) -/

/-- Python `str.lower` restricted to the ASCII mapping, written over the
character list so that it reduces in the kernel. -/
def strLower (s : String) : String :=
  String.mk (s.data.map Char.toLower)

/-- Python `str.strip`: drop whitespace from both ends. -/
def strTrim (s : String) : String :=
  String.mk (((s.data.dropWhile Char.isWhitespace).reverse.dropWhile Char.isWhitespace).reverse)

/-- Does the first list occur at the head of the second one? -/
def chStarts : List Char → List Char → Bool
  | [], _ => true
  | _ :: _, [] => false
  | a :: as, b :: bs => a == b && chStarts as bs

/-- Does the first list occur contiguously anywhere inside the second one? -/
def chSub (needle : List Char) : List Char → Bool
  | [] => chStarts needle []
  | b :: bs => chStarts needle (b :: bs) || chSub needle bs

/-- Python `needle in hay` on strings: contiguous substring test. -/
def strContains (hay needle : String) : Bool :=
  chSub needle.toList hay.toList

/-- Python `a or d` where `a` is an optional string: the empty string and
`None` are falsy and fall through to the default. -/
def pyOrS (a : Option String) (d : String) : String :=
  match a with
  | some s => if s = "" then d else s
  | none => d

/-- Python `props.get("housingunitstotal") or 1`: `None` and `0` are falsy and
fall through to the default `1`. -/
def pyUnits (u : Option ℤ) : ℤ :=
  match u with
  | some n => if n = 0 then 1 else n
  | none => 1

/-! ## shared/cache.py -/

/-- One cache file on disk.  `content = some v` stands for a file holding the
JSON serialization of `v`; `content = none` stands for a corrupt or partially
written file, on which `json.load` raises. -/
structure CacheFile (α : Type) where
  content : Option α
  mtime : ℚ

/-- shared/cache.py `is_cache_valid`: the file exists and its age is strictly
below `duration_hours` (hours, here converted to seconds). -/
def is_cache_valid {α : Type} (entry : Option (CacheFile α)) (now duration_hours : ℚ) : Bool :=
  match entry with
  | none => false
  | some f => decide (now - f.mtime < duration_hours * 3600)

/-- shared/cache.py `load_from_cache`: when the entry is valid, parse it
(`json.load`), which raises (`Except.error`) on corrupt content; otherwise
return `None`. -/
def load_from_cache {α : Type} (store : String → Option (CacheFile α))
    (cache_key : String) (now duration_hours : ℚ) : Except Unit (Option α) :=
  if is_cache_valid (store cache_key) now duration_hours then
    match store cache_key with
    | some f =>
      match f.content with
      | some v => Except.ok (some v)
      | none => Except.error ()
    | none => Except.error ()
  else
    Except.ok none

/-- shared/cache.py `save_to_cache`: overwrite the entry for the key with a
well-formed serialization of `data`, stamped at the current time. -/
def save_to_cache {α : Type} (store : String → Option (CacheFile α))
    (cache_key : String) (data : α) (now : ℚ) : String → Option (CacheFile α) :=
  fun k => if k = cache_key then some { content := some data, mtime := now } else store k

/-! ## The permit feature record (GeoJSON properties used by housing.py) -/

/-- The properties of one upstream permit feature, with one optional field per
dictionary key the source reads.  Fields the upstream record lacks are `none`. -/
structure PermitProps where
  permittypemapped : Option String := none
  permittype : Option String := none
  issueddate : Option ℚ := none
  statuscurrentmapped : Option String := none
  statuscurrent : Option String := none
  permitnum : Option String := none
  proposedworkdescription : Option String := none
  description : Option String := none
  permitclassmapped : Option String := none
  workclassmapped : Option String := none
  workclass : Option String := none
  occupancyclass : Option String := none
  adu_type : Option String := none
  housingunitstotal : Option ℤ := none
  streetnum : Option String := none
  streetdirectionprefix : Option String := none
  streetname : Option String := none
  streettype : Option String := none
  streetdirectionsuffix : Option String := none
deriving DecidableEq

/-- One GeoJSON feature: properties plus an optional `[lng, lat]` pair
(`coords = none` models a missing or empty geometry). -/
structure PermitFeature where
  props : PermitProps := {}
  coords : Option (Option ℚ × Option ℚ) := none
deriving DecidableEq

/-- Feature with only a permit number, for concrete test records. -/
def mkFeat (num : Option String) : PermitFeature :=
  { props := { permitnum := num } }

/-- Feature with a permit number and a description, for concrete test records. -/
def mkFeatD (num : Option String) (d : String) : PermitFeature :=
  { props := { permitnum := num, description := some d } }

/-! ## blueprints/housing.py `merge_permit_sources` -/

/-- blueprints/housing.py `merge_permit_sources`: collect the primary key set,
keep every primary feature, and append each supplemental feature whose
`permitnum` is absent from the primary key set. -/
def merge_permit_sources (building_permits adu_permits : List PermitFeature) : List PermitFeature :=
  let existing_nums := building_permits.map (fun f => f.props.permitnum)
  adu_permits.foldl
    (fun merged feature =>
      if feature.props.permitnum ∈ existing_nums then merged else merged ++ [feature])
    building_permits

/-! ## blueprints/housing.py `classify_housing_type` -/

/-- The sentinel strings of the ADU guard in `classify_housing_type`. -/
def adu_na_sentinels : List String :=
  ["null", "not accessory dwelling", "not accessory dwelli", ""]

/-- blueprints/housing.py `classify_housing_type`: the priority cascade
ADU, Multifamily (5+), Small Multifamily (3-4), Duplex, Townhome,
Single Family, Unknown, evaluated top to bottom. -/
def classify_housing_type (props : PermitProps) : String :=
  let workclass := strLower (strTrim (pyOrS props.workclass ""))
  let occupancy := strLower (strTrim (pyOrS props.occupancyclass ""))
  let adu_type := strTrim (pyOrS props.adu_type "")
  let units := pyUnits props.housingunitstotal
  if adu_type ≠ "" ∧ strLower adu_type ∉ adu_na_sentinels then "ADU"
  else if units ≥ 5 then "Multifamily"
  else if units ≥ 3 then "Small Multifamily"
  else if strContains occupancy "duplex" = true ∨ units = 2 then "Duplex"
  else if strContains workclass "townhouse" = true ∨ strContains workclass "townhome" = true then "Townhome"
  else if strContains workclass "single family" = true ∨ strContains occupancy "r3" = true
      ∨ strContains occupancy "sfd" = true ∨ units = 1 then "Single Family"
  else "Unknown"

/-! ## shared/geography.py: urban ring -/

/-- shared/geography.py `URBAN_RING_MAP`, in insertion order. -/
def URBAN_RING_MAP : List (String × String) :=
  [("27601", "Downtown"),
   ("27603", "Near Downtown"), ("27604", "Near Downtown"), ("27605", "Near Downtown"),
   ("27607", "Near Downtown"), ("27608", "Near Downtown"),
   ("27606", "Inner Suburb"), ("27609", "Inner Suburb"), ("27610", "Inner Suburb"),
   ("27612", "Inner Suburb"), ("27615", "Inner Suburb"), ("27616", "Inner Suburb"),
   ("27613", "Outer Suburb"), ("27614", "Outer Suburb"), ("27617", "Outer Suburb")]

/-- shared/geography.py `get_urban_ring`: falsy zip code gives "Unknown", else
dictionary lookup with default "Unknown". -/
def get_urban_ring (zip_code : Option String) : String :=
  match zip_code with
  | none => "Unknown"
  | some z => if z = "" then "Unknown" else (URBAN_RING_MAP.lookup z).getD "Unknown"

/-! ## shared/geography.py: zip code centers and `get_zip_for_coords` -/

/-- shared/geography.py `ZIP_CODE_CENTERS`: (zip, latitude, longitude, match
radius) in insertion order. -/
def ZIP_CODE_CENTERS : List (String × ℚ × ℚ × ℚ) :=
  [("27601", 35.7796, -78.6382, 0.02),
   ("27603", 35.7350, -78.6650, 0.04),
   ("27604", 35.8050, -78.5800, 0.04),
   ("27605", 35.7950, -78.6550, 0.025),
   ("27606", 35.7600, -78.7100, 0.04),
   ("27607", 35.8100, -78.6800, 0.03),
   ("27608", 35.8050, -78.6350, 0.02),
   ("27609", 35.8400, -78.6300, 0.04),
   ("27610", 35.7500, -78.5500, 0.05),
   ("27612", 35.8450, -78.7050, 0.04),
   ("27613", 35.8900, -78.7500, 0.05),
   ("27614", 35.9500, -78.6500, 0.05),
   ("27615", 35.8700, -78.6200, 0.04),
   ("27616", 35.8650, -78.5350, 0.05),
   ("27617", 35.9000, -78.8000, 0.04)]

/-- Squared Euclidean degree-space distance from the point to a zip center
(the source takes the square root; comparisons against the radius and the
running best are strict on both sides, so comparing squares is equivalent). -/
def zipSqDist (lat lng : ℚ) (c : String × ℚ × ℚ × ℚ) : ℚ :=
  (lat - c.2.1) ^ 2 + (lng - c.2.2.1) ^ 2

/-- The loop of `get_zip_for_coords`: the accumulator is the current best
(zip, squared distance), `none` standing for `best_zip = None` /
`best_dist = inf`.  A center replaces the best only when its distance is
strictly below its own radius and strictly below the running best. -/
def zipFold (lat lng : ℚ) : List (String × ℚ × ℚ × ℚ) → Option (String × ℚ) → Option (String × ℚ)
  | [], acc => acc
  | c :: rest, acc =>
    let d2 := zipSqDist lat lng c
    if d2 < c.2.2.2 ^ 2 ∧ (∀ b ∈ acc, d2 < b.2) then
      zipFold lat lng rest (some (c.1, d2))
    else
      zipFold lat lng rest acc

/-- shared/geography.py `get_zip_for_coords`: falsy coordinates give `None`;
otherwise the strictly-within-radius center of minimum distance wins, the
first such center in table order on a tie. -/
def get_zip_for_coords (lat lng : Option ℚ) : Option String :=
  match lat, lng with
  | some la, some ln =>
    if la = 0 ∨ ln = 0 then none
    else (zipFold la ln ZIP_CODE_CENTERS none).map Prod.fst
  | _, _ => none

/-! ## shared/geography.py: polygons and area plans -/

/-- shared/geography.py `point_in_polygon`: ray-casting parity over the edges
(polygon[i], polygon[i-1 mod n]), mirroring the j = i-1 indexing of the
source by zipping the ring with last :: dropLast. -/
def point_in_polygon (x y : ℚ) (polygon : List (ℚ × ℚ)) : Bool :=
  (polygon.zip (polygon.getLastD (0, 0) :: polygon.dropLast)).foldl
    (fun inside e =>
      if (decide (e.1.2 > y) != decide (e.2.2 > y))
          && decide (x < (e.2.1 - e.1.1) * (y - e.1.2) / (e.2.2 - e.1.2) + e.1.1) then
        !inside
      else inside)
    false

/-- The geometry of one area-plan feature. -/
inductive APGeometry where
  | polygon (rings : List (List (ℚ × ℚ)))
  | multiPolygon (polys : List (List (List (ℚ × ℚ))))
  | other

/-- One area-plan feature: optional NAME property plus geometry. -/
structure APFeature where
  name : Option String
  geometry : APGeometry

/-- The feature loop of `get_area_plan_for_coords`.  On the first feature one
of whose rings contains the point the source returns that feature's name
(which may itself be `None`); the outer `some` records that a return
happened. -/
def area_plan_loop (lat lng : ℚ) : List APFeature → Option (Option String)
  | [] => none
  | f :: rest =>
    match f.geometry with
    | .polygon rings =>
      if rings.any (fun ring => point_in_polygon lng lat ring) then some f.name
      else area_plan_loop lat lng rest
    | .multiPolygon polys =>
      if polys.any (fun poly => poly.any (fun ring => point_in_polygon lng lat ring)) then some f.name
      else area_plan_loop lat lng rest
    | .other => area_plan_loop lat lng rest

/-- shared/geography.py `get_area_plan_for_coords`: falsy coordinates or a
falsy area-plan collection give `None`; otherwise the first matching feature's
name (a hit on a feature without a NAME also returns `None`). -/
def get_area_plan_for_coords (lat lng : Option ℚ) (area_plans : Option (List APFeature)) : Option String :=
  match lat, lng, area_plans with
  | some la, some ln, some plans =>
    if la = 0 ∨ ln = 0 then none
    else (area_plan_loop la ln plans).join
  | _, _, _ => none

/-! ## shared/geography.py: transit score -/

/-- Downtown Raleigh center (`DOWNTOWN_CENTER`). -/
def DOWNTOWN_CENTER : ℚ × ℚ := (35.7796, -78.6382)

/-- shared/geography.py `BRT_CORRIDORS`: every corridor waypoint, flattened in
iteration order (the source only ever takes the minimum distance over all
waypoints of all corridors). -/
def BRT_CORRIDOR_POINTS : List (ℚ × ℚ) :=
  [(35.7796, -78.6382), (35.7800, -78.5500),
   (35.7796, -78.6382), (35.7000, -78.6300),
   (35.7796, -78.6382), (35.7600, -78.7500)]

/-- Python `round` on a rational: round half to even (banker's rounding). -/
def pyRound (q : ℚ) : ℤ :=
  if q - Int.floor q < 1 / 2 then Int.floor q
  else if q - Int.floor q > 1 / 2 then Int.floor q + 1
  else if Int.floor q % 2 = 0 then Int.floor q else Int.floor q + 1

/-- Python `round(x, 1)`: one decimal place. -/
def round1 (q : ℚ) : ℚ :=
  (pyRound (q * 10) : ℚ) / 10

/-- The piecewise bonus `calculate_brt_proximity` applies to the minimum
corridor distance: 30 within half a mile, linear decay to 0 between 0.5 and
1.5 miles, 0 beyond. -/
def brt_score_of_dist (min_dist : ℚ) : ℚ :=
  if min_dist ≤ 1 / 2 then 30
  else if min_dist ≤ 3 / 2 then 30 * (1 - (min_dist - 1 / 2) / 1)
  else 0

/-- The minimum over all corridor waypoints of the (oracle) haversine
distance.  The source starts from infinity; the waypoint list is a nonempty
constant, so the fold starts from the first mapped value. -/
def brt_min_dist (dist : ℚ → ℚ → ℚ → ℚ → ℚ) (lat lon : ℚ) : ℚ :=
  match BRT_CORRIDOR_POINTS.map (fun c => dist lat lon c.1 c.2) with
  | [] => 0
  | d :: ds => ds.foldl min d

/-- shared/geography.py `calculate_brt_proximity` (0-30 points), with the
haversine kept as the oracle `dist`. -/
def calculate_brt_proximity (dist : ℚ → ℚ → ℚ → ℚ → ℚ) (lat lon : ℚ) : ℚ :=
  brt_score_of_dist (brt_min_dist dist lat lon)

/-- The distance-to-downtown component of `calculate_transit_score`
(0-50 points): the if-chain cut at 1, 3, 6 and 10 miles. -/
def transit_base (dist_to_downtown : ℚ) : ℚ :=
  if dist_to_downtown ≤ 1 then 50
  else if dist_to_downtown ≤ 3 then 50 * (1 - (dist_to_downtown - 1) / 2)
  else if dist_to_downtown ≤ 6 then 25 * (1 - (dist_to_downtown - 3) / 3)
  else if dist_to_downtown ≤ 10 then 10 * (1 - (dist_to_downtown - 6) / 4)
  else 0

/-- The density bonus of `calculate_transit_score` (0-20 points): the step
function on the same distance, cut at 2, 5, 8 and 12 miles. -/
def transit_density (dist_to_downtown : ℚ) : ℚ :=
  if dist_to_downtown ≤ 2 then 20
  else if dist_to_downtown ≤ 5 then 15
  else if dist_to_downtown ≤ 8 then 10
  else if dist_to_downtown ≤ 12 then 5
  else 0

/-- The arithmetic core of `calculate_transit_score` as a function of the two
distances it derives from the coordinates: distance-to-downtown component
(0-50), corridor bonus (0-30), density bonus (0-20), capped at 100 and rounded
to one decimal. -/
def transit_score_value (dist_to_downtown brt_min : ℚ) : ℚ :=
  round1 (min 100 (transit_base dist_to_downtown + brt_score_of_dist brt_min
    + transit_density dist_to_downtown))

/-- shared/geography.py `calculate_transit_score`: `None` on falsy
coordinates, otherwise the composed score. -/
def calculate_transit_score (dist : ℚ → ℚ → ℚ → ℚ → ℚ) (lat lon : Option ℚ) : Option ℚ :=
  match lat, lon with
  | some la, some lo =>
    if la = 0 ∨ lo = 0 then none
    else
      some (transit_score_value (dist la lo DOWNTOWN_CENTER.1 DOWNTOWN_CENTER.2)
        (brt_min_dist dist la lo))
  | _, _ => none

/-! ## blueprints/housing.py `fetch_historical_permits` pagination loop -/

/-- The pagination loop of `fetch_historical_permits` (and of
`fetch_commercial_permits` in blueprints/business.py).  `page n` is the
upstream response at result offset `n`: `Except.error` models a request
exception (break), `Except.ok []` an empty page (break); otherwise the
features are collected, the offset advances by the batch size 2000, and the
loop stops once the offset reaches the 50000-record safety cap. -/
def fetch_page_loop (page : ℕ → Except Unit (List PermitFeature))
    (offset : ℕ) (all_features : List PermitFeature) : List PermitFeature :=
  match page offset with
  | Except.error _ => all_features
  | Except.ok [] => all_features
  | Except.ok (f :: fs) =>
    if _h : offset + 2000 ≥ 50000 then all_features ++ f :: fs
    else fetch_page_loop page (offset + 2000) (all_features ++ f :: fs)
termination_by 50000 - offset
decreasing_by omega

/-- blueprints/housing.py `fetch_historical_permits`: run the pagination loop
from offset 0 with no collected features. -/
def fetch_historical_permits (page : ℕ → Except Unit (List PermitFeature)) : List PermitFeature :=
  fetch_page_loop page 0 []

/-! ## blueprints/housing.py `process_permits` -/

/-- What `datetime.fromtimestamp(ms / 1000)` yields for one timestamp, as far
as `process_permits` consumes it: the year, the `%Y-%m-%d` string and the
`%Y-%W` week string.  The oracle returning `none` models the caught
`ValueError` / `TypeError`. -/
structure DateEmb where
  year : ℤ
  dateStr : String
  weekStr : String

/-- One processed permit as built by the loop body of `process_permits`
(`ptype` embeds the dictionary key "type", a reserved word here). -/
structure Permit where
  permit_num : String
  ptype : String
  status : String
  address : String
  description : String
  issue_date : String
  issue_year : Option ℤ
  lng : Option ℚ
  lat : Option ℚ
  permit_class : String
  housing_type : String
  work_type : String
  work_class : String
  zip_code : Option String
  neighborhood : Option String
  urban_ring : String
  transit_score : Option ℚ
  units : ℤ

/-- Python `d[k] = d.get(k, 0) + 1` on an insertion-ordered dictionary:
increment in place, or append a new key with count 1. -/
def bump {κ : Type} [DecidableEq κ] (d : List (κ × ℕ)) (k : κ) : List (κ × ℕ) :=
  match d with
  | [] => [(k, 1)]
  | (k0, v) :: rest => if k0 = k then (k0, v + 1) :: rest else (k0, v) :: bump rest k

/-- The address line of `process_permits`: join the nonempty street parts with
blanks, strip, and fall back to "No address" when the result is empty. -/
def mkAddress (props : PermitProps) : String :=
  let parts := [props.streetnum.getD "", ( PermitProps.streetdirectionprefix props).getD "",
    props.streetname.getD "", props.streettype.getD "", props.streetdirectionsuffix.getD ""]
  let joined := strTrim (String.intercalate " " (parts.filter (fun p => p ≠ "")))
  if joined = "" then "No address" else joined

/-- The mutable locals of the `process_permits` loop. -/
structure PState where
  permits : List Permit
  type_counts : List (String × ℕ)
  timeline_data : List (String × ℕ)
  class_counts : List (String × ℕ)
  housing_type_counts : List (String × ℕ)
  work_counts : List (String × ℕ)
  status_counts : List (String × ℕ)
  zip_counts : List (String × ℕ)
  neighborhood_counts : List (String × ℕ)
  urban_ring_counts : List (String × ℕ)
  yearly_counts : List (ℤ × ℕ)
  total_units : ℤ

/-- The initial loop state of `process_permits`: empty tables, zero units. -/
def initPState : PState :=
  { permits := [], type_counts := [], timeline_data := [], class_counts := [],
    housing_type_counts := [], work_counts := [], status_counts := [], zip_counts := [],
    neighborhood_counts := [], urban_ring_counts := [], yearly_counts := [], total_units := 0 }

/-- The loop body of `process_permits` for one feature: derive the fields,
build the permit record, and update every aggregation table. -/
def process_step (dist : ℚ → ℚ → ℚ → ℚ → ℚ) (dateFn : ℚ → Option DateEmb)
    (area_plans : Option (List APFeature)) (bus_stops : Bool)
    (s : PState) (feature : PermitFeature) : PState :=
  let props := feature.props
  let permit_type := pyOrS props.permittypemapped (pyOrS props.permittype "Unknown")
  let status := pyOrS props.statuscurrentmapped (pyOrS props.statuscurrent "Unknown")
  let permit_num := pyOrS props.permitnum "N/A"
  let description := pyOrS props.proposedworkdescription (pyOrS props.description "")
  let permit_class := pyOrS props.permitclassmapped "Unknown"
  let work_type := pyOrS props.workclassmapped "Unknown"
  let work_class := pyOrS props.workclass "Unknown"
  let units := pyUnits props.housingunitstotal
  let housing_type := classify_housing_type props
  let address := mkAddress props
  let dinfo : Option DateEmb :=
    match props.issueddate with
    | none => none
    | some ms => if ms = 0 then none else dateFn ms
  let issue_year : Option ℤ := dinfo.map DateEmb.year
  let lat : Option ℚ := match feature.coords with | some c => c.2 | none => none
  let lng : Option ℚ := match feature.coords with | some c => c.1 | none => none
  let zip_code := get_zip_for_coords lat lng
  let urban_ring := get_urban_ring zip_code
  let neighborhood :=
    match area_plans with
    | some _ => get_area_plan_for_coords lat lng area_plans
    | none => none
  let transit_score := if bus_stops then calculate_transit_score dist lat lng else none
  let permit : Permit :=
    { permit_num := permit_num, ptype := permit_type, status := status, address := address,
      description := description,
      issue_date := match dinfo with | some d => d.dateStr | none => "Unknown",
      issue_year := issue_year, lng := lng, lat := lat, permit_class := permit_class,
      housing_type := housing_type, work_type := work_type, work_class := work_class,
      zip_code := zip_code, neighborhood := neighborhood, urban_ring := urban_ring,
      transit_score := transit_score, units := units }
  { permits := s.permits ++ [permit]
    type_counts := bump s.type_counts permit_type
    timeline_data :=
      match dinfo with
      | some d => bump s.timeline_data d.weekStr
      | none => s.timeline_data
    class_counts := bump s.class_counts permit_class
    housing_type_counts := bump s.housing_type_counts housing_type
    work_counts := bump s.work_counts work_type
    status_counts := bump s.status_counts status
    zip_counts :=
      match zip_code with
      | some z => if z = "" then s.zip_counts else bump s.zip_counts z
      | none => s.zip_counts
    neighborhood_counts :=
      match neighborhood with
      | some nb => if nb = "" then s.neighborhood_counts else bump s.neighborhood_counts nb
      | none => s.neighborhood_counts
    urban_ring_counts := bump s.urban_ring_counts urban_ring
    yearly_counts :=
      match issue_year with
      | some y => if y = 0 then s.yearly_counts else bump s.yearly_counts y
      | none => s.yearly_counts
    total_units := s.total_units + units }

/-- Python `dict(sorted(d.items(), key=lambda x: x[1], reverse=True))`:
stable descending sort of a count table by value. -/
def sortCountsDesc (d : List (String × ℕ)) : List (String × ℕ) :=
  d.mergeSort (fun a b => decide (b.2 ≤ a.2))

/-- The response payload `process_permits` returns. -/
structure ProcessResult where
  permits : List Permit
  total_count : ℕ
  total_units : ℤ
  type_counts : List (String × ℕ)
  class_counts : List (String × ℕ)
  housing_type_counts : List (String × ℕ)
  work_counts : List (String × ℕ)
  status_counts : List (String × ℕ)
  zip_counts : List (String × ℕ)
  neighborhood_counts : List (String × ℕ)
  urban_ring_counts : List (String × ℕ)
  yearly_counts : List (ℤ × ℕ)
  timeline_labels : List String
  timeline_values : List ℕ

/-- blueprints/housing.py `process_permits`: fold the loop body over the
features, then assemble the payload, sorting the count tables by descending
count, the yearly table by year and the timeline by week label. -/
def process_permits (dist : ℚ → ℚ → ℚ → ℚ → ℚ) (dateFn : ℚ → Option DateEmb)
    (features : List PermitFeature) (area_plans : Option (List APFeature))
    (bus_stops : Bool) : ProcessResult :=
  let s := features.foldl (process_step dist dateFn area_plans bus_stops) initPState
  let sorted_timeline := s.timeline_data.mergeSort (fun a b => decide (a.1 ≤ b.1))
  { permits := s.permits
    total_count := s.permits.length
    total_units := s.total_units
    type_counts := sortCountsDesc s.type_counts
    class_counts := sortCountsDesc s.class_counts
    housing_type_counts := sortCountsDesc s.housing_type_counts
    work_counts := sortCountsDesc s.work_counts
    status_counts := sortCountsDesc s.status_counts
    zip_counts := sortCountsDesc s.zip_counts
    neighborhood_counts := sortCountsDesc s.neighborhood_counts
    urban_ring_counts := sortCountsDesc s.urban_ring_counts
    yearly_counts := s.yearly_counts.mergeSort (fun a b => decide (a.1 ≤ b.1))
    timeline_labels := sorted_timeline.map Prod.fst
    timeline_values := sorted_timeline.map Prod.snd }

/-! ## Statement apparatus -/

/-- Both distances lie in the same linear segment of the distance-to-downtown
component of `calculate_transit_score`: the segments are cut at 1, 3, 6 and 10
miles, matching the if-chain of the source. -/
def same_dist_segment (d1 d2 : ℚ) : Prop :=
  (d1 ≤ 1 ∧ d2 ≤ 1)
  ∨ (1 < d1 ∧ d1 ≤ 3 ∧ 1 < d2 ∧ d2 ≤ 3)
  ∨ (3 < d1 ∧ d1 ≤ 6 ∧ 3 < d2 ∧ d2 ≤ 6)
  ∨ (6 < d1 ∧ d1 ≤ 10 ∧ 6 < d2 ∧ d2 ≤ 10)
  ∨ (10 < d1 ∧ 10 < d2)

/-- The sum of the counts of a count table. -/
def sumVals {κ : Type} (d : List (κ × ℕ)) : ℕ :=
  (d.map Prod.snd).sum

/-- The loop invariant of `process_permits`: every unconditional count table
sums to the number of permits built so far, and the running unit total is the
sum of the built permits' unit fields. -/
def PInv (s : PState) : Prop :=
  sumVals s.type_counts = s.permits.length
  ∧ sumVals s.class_counts = s.permits.length
  ∧ sumVals s.housing_type_counts = s.permits.length
  ∧ sumVals s.work_counts = s.permits.length
  ∧ sumVals s.status_counts = s.permits.length
  ∧ sumVals s.urban_ring_counts = s.permits.length
  ∧ s.total_units = (s.permits.map Permit.units).sum

/-! ## Theorems -/

/-- C1 (code bug evidence): a cache entry whose file content is corrupt but
whose mtime is fresh makes `load_from_cache` raise (the `json.load` error
propagates) instead of returning `None`; the spec requires corrupt entries to
be treated as a cache miss. -/
theorem cache_corrupt_fresh_entry_raises :
    load_from_cache
      (fun k => if k = "new_residential_permits_2020_2025" then
        some ({ content := none, mtime := 0 } : CacheFile ℕ) else none)
      "new_residential_permits_2020_2025" 60 24 = Except.error () := by
  have hv : is_cache_valid (some ({ content := none, mtime := 0 } : CacheFile ℕ)) 60 24 = true := by
    simp only [is_cache_valid, decide_eq_true_eq]
    norm_num
  simp only [load_from_cache, if_pos rfl, hv, if_true]

/-- C7: writing a payload and reading it back within the TTL window returns
the payload unchanged, and a read of any entry whose age is at least the
caller-supplied duration threshold returns `None`. -/
theorem cache_put_get_roundtrip {α : Type} (store : String → Option (CacheFile α))
    (k : String) (v : α) (t now duration_hours : ℚ) :
    (now - t < duration_hours * 3600 →
      load_from_cache (save_to_cache store k v t) k now duration_hours = Except.ok (some v))
  ∧ (∀ f, store k = some f → duration_hours * 3600 ≤ now - f.mtime →
      load_from_cache store k now duration_hours = Except.ok none) := by
  constructor
  · intro h
    simp only [load_from_cache, save_to_cache, if_pos rfl, is_cache_valid,
      decide_eq_true_eq, if_true, h]
  · intro f hf h
    simp only [load_from_cache, is_cache_valid, hf, decide_eq_true_eq, not_lt.mpr h,
      if_false]

/-- Witness for C7 at a concrete store, key, payload and clock. -/
theorem cache_put_get_roundtrip_witness :
    load_from_cache (save_to_cache (fun _ => (none : Option (CacheFile ℕ))) "permits" 7 0)
      "permits" 100 24 = Except.ok (some 7) :=
  (cache_put_get_roundtrip (fun _ => none) "permits" 7 0 100 24).1 (by norm_num)

/-- The merge loop appends exactly the features whose key misses the key set,
in order. -/
theorem foldl_merge_step (keys : List (Option String)) :
    ∀ (adu acc : List PermitFeature),
      adu.foldl
        (fun merged feature =>
          if feature.props.permitnum ∈ keys then merged else merged ++ [feature]) acc
        = acc ++ adu.filter (fun f => decide (f.props.permitnum ∉ keys))
  | [], acc => by simp
  | f :: fs, acc => by
    by_cases h : f.props.permitnum ∈ keys
    · simp only [List.foldl_cons, if_pos h, foldl_merge_step keys fs acc,
        List.filter_cons, decide_eq_true_eq]
      simp [h]
    · simp only [List.foldl_cons, if_neg h, foldl_merge_step keys fs (acc ++ [f]),
        List.filter_cons, decide_eq_true_eq]
      simp [h]

/-- Closed form of `merge_permit_sources`: the primary features, in order,
followed by the supplemental features whose permit number is absent from the
primary key set, in order. -/
theorem merge_permit_sources_eq (building adu : List PermitFeature) :
    merge_permit_sources building adu
      = building ++ adu.filter
          (fun f => decide (f.props.permitnum ∉ building.map (fun g => g.props.permitnum))) := by
  simp only [merge_permit_sources]
  exact foldl_merge_step _ adu building

/-- C5: the merge keeps every primary record unchanged and first, appends
exactly the supplemental records whose permit number is absent from the
primary key set in their original order, and on the `{A,B} + {B,C}` shape
yields `{A,B,C}` of length 3. -/
theorem merge_primary_first_appends_absent (building adu : List PermitFeature) :
    merge_permit_sources building adu
      = building ++ adu.filter
          (fun f => decide (f.props.permitnum ∉ building.map (fun g => g.props.permitnum)))
  ∧ merge_permit_sources [mkFeat (some "A"), mkFeat (some "B")]
      [mkFeatD (some "B") "supplemental", mkFeat (some "C")]
      = [mkFeat (some "A"), mkFeat (some "B"), mkFeat (some "C")]
  ∧ (merge_permit_sources [mkFeat (some "A"), mkFeat (some "B")]
      [mkFeatD (some "B") "supplemental", mkFeat (some "C")]).length = 3 :=
  ⟨merge_permit_sources_eq building adu, by decide, by decide⟩

/-- C6 counterexample: with a duplicate-free primary set, two supplemental
records sharing the key "B" both survive the merge, so the merged output is
not key-distinct — the loop only ever tests keys against the primary set. -/
theorem merge_dup_supplemental_keys_counterexample :
    ((merge_permit_sources [mkFeat (some "A")] [mkFeatD (some "B") "x", mkFeatD (some "B") "y"]).map
        (fun f => f.props.permitnum)) = [some "A", some "B", some "B"]
  ∧ ¬ ((merge_permit_sources [mkFeat (some "A")] [mkFeatD (some "B") "x", mkFeatD (some "B") "y"]).map
        (fun f => f.props.permitnum)).Nodup
  ∧ ([mkFeat (some "A")].map (fun f => f.props.permitnum)).Nodup :=
  ⟨by decide, by decide, by decide⟩

/-- C6 as amended: when the primary set and the supplemental set are each
key-distinct on their own, no two records of the merged output share a key
(dedup only ever tests supplemental keys against the primary key set). -/
theorem merge_nodup_keys_of_nodup_inputs (building adu : List PermitFeature)
    (hb : (building.map (fun f => f.props.permitnum)).Nodup)
    (ha : (adu.map (fun f => f.props.permitnum)).Nodup) :
    ((merge_permit_sources building adu).map (fun f => f.props.permitnum)).Nodup := by
  rw [merge_permit_sources_eq, List.map_append, List.nodup_append]
  refine ⟨hb, ?_, ?_⟩
  · exact ha.sublist ((List.filter_sublist adu).map _)
  · intro a hamem hafil
    obtain ⟨f, hf, hfa⟩ := List.mem_map.mp hafil
    have := (List.mem_filter.mp hf).2
    rw [decide_eq_true_eq] at this
    exact this (hfa ▸ hamem)

/-- Witness for the amended C6 at concrete duplicate-free inputs. -/
theorem merge_nodup_keys_witness :
    ((merge_permit_sources [mkFeat (some "A")] [mkFeatD (some "A") "dup", mkFeat (some "C")]).map
        (fun f => f.props.permitnum)).Nodup :=
  merge_nodup_keys_of_nodup_inputs [mkFeat (some "A")] [mkFeatD (some "A") "dup", mkFeat (some "C")]
    (by decide) (by decide)

/-- C2 counterexample: a record with a real ADU marker, declared unit count 5
and a duplex occupancy string classifies as "ADU" — the ADU rule sits above
the unit-count rule, so such a record does not classify as "Multifamily". -/
theorem classify_adu_outranks_count_counterexample :
    classify_housing_type
      { adu_type := some "Garage Apartment", housingunitstotal := some 5,
        occupancyclass := some "Duplex" } = "ADU"
  ∧ ("ADU" : String) ≠ "Multifamily" :=
  ⟨by decide, by decide⟩

/-- C2 as amended: `classify_housing_type` is total over the seven categories,
and every record without an applicable ADU marker whose declared unit count is
5 classifies as "Multifamily" (hence not "Duplex"), whatever its occupancy
string says. -/
theorem classify_total_and_count_priority :
    (∀ props, classify_housing_type props ∈
      ["ADU", "Multifamily", "Small Multifamily", "Duplex", "Townhome", "Single Family", "Unknown"])
  ∧ (∀ props, (strTrim (pyOrS props.adu_type "") = ""
        ∨ strLower (strTrim (pyOrS props.adu_type "")) ∈ adu_na_sentinels) →
      props.housingunitstotal = some 5 →
      classify_housing_type props = "Multifamily" ∧ classify_housing_type props ≠ "Duplex") := by
  constructor
  · intro props
    simp only [classify_housing_type]
    split_ifs <;> simp
  · intro props hadu h5
    have hu : pyUnits props.housingunitstotal = 5 := by rw [h5]; rfl
    have hres : classify_housing_type props = "Multifamily" := by
      simp only [classify_housing_type]
      split_ifs with h1 h2
      · rcases hadu with h | h
        · exact absurd h h1.1
        · exact absurd h h1.2
      · rfl
      all_goals rw [hu] at h2
      all_goals omega
    exact ⟨hres, by rw [hres]; decide⟩

/-- Witness for the amended C2 at a concrete five-unit duplex-occupancy
record without an ADU marker. -/
theorem classify_total_and_count_priority_witness :
    classify_housing_type { housingunitstotal := some 5, occupancyclass := some "Duplex" }
        = "Multifamily"
  ∧ classify_housing_type { housingunitstotal := some 5, occupancyclass := some "Duplex" }
        ≠ "Duplex" :=
  (classify_total_and_count_priority).2
    { housingunitstotal := some 5, occupancyclass := some "Duplex" }
    (Or.inl (by decide)) rfl

/-- C10: a latitude or longitude of exactly 0 is numerically a coordinate but
falls into the falsy guard, so the transit score, the zip lookup and the area
plan lookup all return `None`. -/
theorem zero_coordinate_guard (dist : ℚ → ℚ → ℚ → ℚ → ℚ) (lat lng : Option ℚ)
    (area_plans : Option (List APFeature))
    (h : lat = some 0 ∨ lng = some 0) :
    calculate_transit_score dist lat lng = none
  ∧ get_zip_for_coords lat lng = none
  ∧ get_area_plan_for_coords lat lng area_plans = none := by
  rcases h with h | h
  · subst h
    cases lng <;> cases area_plans <;>
      simp [calculate_transit_score, get_zip_for_coords, get_area_plan_for_coords]
  · subst h
    cases lat <;> cases area_plans <;>
      simp [calculate_transit_score, get_zip_for_coords, get_area_plan_for_coords]

/-- Witness for C10 at latitude 0, longitude 35. -/
theorem zero_coordinate_guard_witness :
    calculate_transit_score (fun _ _ _ _ => 0) (some 0) (some 35) = none
  ∧ get_zip_for_coords (some 0) (some 35) = none
  ∧ get_area_plan_for_coords (some 0) (some 35) none = none :=
  zero_coordinate_guard (fun _ _ _ _ => 0) (some 0) (some 35) none (Or.inl rfl)

/-- Length bound for the pagination loop: when every upstream page holds at
most the batch size of 2000 features and the offset is a batch multiple below
the cap, the loop collects at most the remaining budget. -/
theorem fetch_page_loop_length (page : ℕ → Except Unit (List PermitFeature))
    (hb : ∀ n l, page n = Except.ok l → l.length ≤ 2000) :
    ∀ (fuel offset : ℕ) (acc : List PermitFeature), 50000 - offset ≤ fuel →
      2000 ∣ offset → offset ≤ 48000 →
      (fetch_page_loop page offset acc).length ≤ acc.length + (50000 - offset) := by
  intro fuel
  induction fuel with
  | zero => intro offset acc hfuel _ hcap; omega
  | succ m ih =>
    intro offset acc hfuel hdvd hcap
    rw [fetch_page_loop]
    cases hp : page offset with
    | error e => simp only []; omega
    | ok l =>
      cases l with
      | nil => simp only []; omega
      | cons f fs =>
        have hlen : (f :: fs).length ≤ 2000 := hb offset (f :: fs) hp
        simp only []
        by_cases hoff : offset + 2000 ≥ 50000
        · rw [dif_pos hoff]
          simp only [List.length_append]
          have : offset + 2000 ≤ 50000 := by
            obtain ⟨c, rfl⟩ := hdvd
            omega
          omega
        · rw [dif_neg hoff]
          have hdvd2 : 2000 ∣ offset + 2000 := by
            obtain ⟨c, rfl⟩ := hdvd
            exact ⟨c + 1, by ring⟩
          have := ih (offset + 2000) (acc ++ f :: fs) (by omega) hdvd2 (by omega)
          simp only [List.length_append] at this
          omega

/-- C8: for every sequence of upstream pages of at most the 2000-record batch
size, the terminating pagination loop of `fetch_historical_permits` collects
at most the 50000-record safety cap, and an immediately empty first page
yields an empty collection. -/
theorem fetch_historical_permits_bounded (page : ℕ → Except Unit (List PermitFeature))
    (hb : ∀ n l, page n = Except.ok l → l.length ≤ 2000) :
    (fetch_historical_permits page).length ≤ 50000
  ∧ (page 0 = Except.ok [] → fetch_historical_permits page = []) := by
  constructor
  · have := fetch_page_loop_length page hb 50000 0 [] (by omega) ⟨0, rfl⟩ (by omega)
    simpa using this
  · intro h0
    unfold fetch_historical_permits
    rw [fetch_page_loop, h0]

/-- Witness for C8 on the upstream that always answers with an empty page. -/
theorem fetch_historical_permits_bounded_witness :
    (fetch_historical_permits (fun _ => Except.ok [])).length ≤ 50000 :=
  (fetch_historical_permits_bounded (fun _ => Except.ok [])
    (fun _ l h => by cases h; simp)).1

/-- Bumping a count table raises its value sum by exactly one. -/
theorem sumVals_bump {κ : Type} [DecidableEq κ] (d : List (κ × ℕ)) (k : κ) :
    sumVals (bump d k) = sumVals d + 1 := by
  induction d with
  | nil => rfl
  | cons kv rest ih =>
    obtain ⟨k0, v⟩ := kv
    by_cases h : k0 = k
    · simp only [bump, if_pos h, sumVals, List.map_cons, List.sum_cons]
      omega
    · simp only [bump, if_neg h, sumVals, List.map_cons, List.sum_cons] at *
      omega

/-- Sorting a count table leaves its value sum unchanged. -/
theorem sumVals_mergeSort {κ : Type} (d : List (κ × ℕ)) (le : κ × ℕ → κ × ℕ → Bool) :
    sumVals (d.mergeSort le) = sumVals d :=
  List.Perm.sum_eq (List.Perm.map _ (List.mergeSort_perm d le))

/-- One pass of the `process_permits` loop body preserves the aggregate
invariant. -/
theorem PInv_step (dist : ℚ → ℚ → ℚ → ℚ → ℚ) (dateFn : ℚ → Option DateEmb)
    (area_plans : Option (List APFeature)) (bus_stops : Bool)
    (s : PState) (f : PermitFeature) (h : PInv s) :
    PInv (process_step dist dateFn area_plans bus_stops s f) := by
  obtain ⟨h1, h2, h3, h4, h5, h6, h7⟩ := h
  unfold PInv process_step
  refine ⟨?_, ?_, ?_, ?_, ?_, ?_, ?_⟩ <;>
    simp [sumVals_bump, h1, h2, h3, h4, h5, h6, h7]

/-- The `process_permits` fold preserves the aggregate invariant. -/
theorem PInv_foldl (dist : ℚ → ℚ → ℚ → ℚ → ℚ) (dateFn : ℚ → Option DateEmb)
    (area_plans : Option (List APFeature)) (bus_stops : Bool) :
    ∀ (features : List PermitFeature) (s : PState), PInv s →
      PInv (features.foldl (process_step dist dateFn area_plans bus_stops) s)
  | [], _, h => h
  | f :: fs, s, h => by
    rw [List.foldl_cons]
    exact PInv_foldl dist dateFn area_plans bus_stops fs _
      (PInv_step dist dateFn area_plans bus_stops s f h)

/-- C9: in every `process_permits` payload the total count equals the length
of the permits list, every unconditional count table (type, class, housing
type, work, status, urban ring) sums to that total, and the unit total is the
sum of the permits' unit fields. -/
theorem process_permits_aggregate_consistency (dist : ℚ → ℚ → ℚ → ℚ → ℚ)
    (dateFn : ℚ → Option DateEmb) (features : List PermitFeature)
    (area_plans : Option (List APFeature)) (bus_stops : Bool) :
    (process_permits dist dateFn features area_plans bus_stops).total_count
      = (process_permits dist dateFn features area_plans bus_stops).permits.length
  ∧ sumVals (process_permits dist dateFn features area_plans bus_stops).housing_type_counts
      = (process_permits dist dateFn features area_plans bus_stops).total_count
  ∧ sumVals (process_permits dist dateFn features area_plans bus_stops).type_counts
      = (process_permits dist dateFn features area_plans bus_stops).total_count
  ∧ sumVals (process_permits dist dateFn features area_plans bus_stops).class_counts
      = (process_permits dist dateFn features area_plans bus_stops).total_count
  ∧ sumVals (process_permits dist dateFn features area_plans bus_stops).work_counts
      = (process_permits dist dateFn features area_plans bus_stops).total_count
  ∧ sumVals (process_permits dist dateFn features area_plans bus_stops).status_counts
      = (process_permits dist dateFn features area_plans bus_stops).total_count
  ∧ sumVals (process_permits dist dateFn features area_plans bus_stops).urban_ring_counts
      = (process_permits dist dateFn features area_plans bus_stops).total_count
  ∧ (process_permits dist dateFn features area_plans bus_stops).total_units
      = ((process_permits dist dateFn features area_plans bus_stops).permits.map
          Permit.units).sum := by
  have hinit : PInv initPState := by
    refine ⟨rfl, rfl, rfl, rfl, rfl, rfl, rfl⟩
  obtain ⟨h1, h2, h3, h4, h5, h6, h7⟩ :=
    PInv_foldl dist dateFn area_plans bus_stops features initPState hinit
  unfold process_permits
  simp only [sortCountsDesc, sumVals_mergeSort]
  exact ⟨trivial, h3, h1, h2, h4, h5, h6, h7⟩

/-- Banker's rounding never goes below the floor. -/
theorem le_pyRound (q : ℚ) : Int.floor q ≤ pyRound q := by
  unfold pyRound
  split_ifs <;> omega

/-- Banker's rounding never exceeds the floor plus one. -/
theorem pyRound_le (q : ℚ) : pyRound q ≤ Int.floor q + 1 := by
  unfold pyRound
  split_ifs <;> omega

/-- Banker's rounding is monotone. -/
theorem pyRound_mono {a b : ℚ} (h : a ≤ b) : pyRound a ≤ pyRound b := by
  rcases lt_or_eq_of_le (Int.floor_le_floor h) with hf | hf
  · have h1 := pyRound_le a
    have h2 := le_pyRound b
    omega
  · have hfr : a - (Int.floor a : ℚ) ≤ b - (Int.floor a : ℚ) := by linarith
    unfold pyRound
    rw [← hf]
    split_ifs <;> first | omega | linarith

/-- Rounding to one decimal is monotone. -/
theorem round1_mono {a b : ℚ} (h : a ≤ b) : round1 a ≤ round1 b := by
  unfold round1
  have hz := pyRound_mono (mul_le_mul_of_nonneg_right h (by norm_num : (0:ℚ) ≤ 10))
  have hc : ((pyRound (a * 10) : ℚ)) ≤ ((pyRound (b * 10) : ℚ)) := by exact_mod_cast hz
  linarith

/-- Rounding zero to one decimal gives zero. -/
theorem round1_zero : round1 0 = 0 := by
  unfold round1 pyRound
  norm_num

/-- Rounding one hundred to one decimal gives one hundred. -/
theorem round1_hundred : round1 100 = 100 := by
  unfold round1 pyRound
  norm_num

/-- Rounding to one decimal keeps a value of [0, 100] inside [0, 100]. -/
theorem round1_range {q : ℚ} (h0 : 0 ≤ q) (h100 : q ≤ 100) :
    0 ≤ round1 q ∧ round1 q ≤ 100 :=
  ⟨round1_zero ▸ round1_mono h0, round1_hundred ▸ round1_mono h100⟩

/-- The rounded value is an integer number of tenths. -/
theorem round1_tenth (q : ℚ) : ∃ n : ℤ, round1 q = (n : ℚ) / 10 :=
  ⟨pyRound (q * 10), rfl⟩

/-- The corridor bonus lies in [0, 30]. -/
theorem brt_score_of_dist_range (m : ℚ) :
    0 ≤ brt_score_of_dist m ∧ brt_score_of_dist m ≤ 30 := by
  unfold brt_score_of_dist
  split_ifs <;> constructor <;> linarith

/-- The distance component lies in [0, 50]. -/
theorem transit_base_range (d : ℚ) : 0 ≤ transit_base d ∧ transit_base d ≤ 50 := by
  unfold transit_base
  split_ifs <;> constructor <;> linarith

/-- The density bonus lies in [0, 20]. -/
theorem transit_density_range (d : ℚ) : 0 ≤ transit_density d ∧ transit_density d ≤ 20 := by
  unfold transit_density
  split_ifs <;> constructor <;> linarith

/-- The composed score lies in [0, 100]. -/
theorem transit_score_value_range (d b : ℚ) :
    0 ≤ transit_score_value d b ∧ transit_score_value d b ≤ 100 := by
  obtain ⟨h1, _⟩ := transit_base_range d
  obtain ⟨h3, _⟩ := transit_density_range d
  obtain ⟨h5, _⟩ := brt_score_of_dist_range b
  unfold transit_score_value
  exact round1_range (le_min (by norm_num) (by linarith)) (min_le_left _ _)

/-- Within one linear segment the distance component is non-increasing. -/
theorem transit_base_mono {d1 d2 : ℚ} (hseg : same_dist_segment d1 d2) (h : d1 ≤ d2) :
    transit_base d2 ≤ transit_base d1 := by
  unfold same_dist_segment at hseg
  unfold transit_base
  rcases hseg with ⟨ha, hb⟩ | ⟨ha, hb, hc, hd⟩ | ⟨ha, hb, hc, hd⟩ | ⟨ha, hb, hc, hd⟩ | ⟨ha, hb⟩ <;>
    split_ifs <;> linarith

/-- The density bonus is non-increasing in the distance everywhere. -/
theorem transit_density_mono {d1 d2 : ℚ} (h : d1 ≤ d2) :
    transit_density d2 ≤ transit_density d1 := by
  unfold transit_density
  split_ifs <;> linarith

/-- Within one linear segment, holding the corridor distance fixed, the score
is non-increasing. -/
theorem transit_score_value_mono {d1 d2 b : ℚ} (hseg : same_dist_segment d1 d2) (h : d1 ≤ d2) :
    transit_score_value d2 b ≤ transit_score_value d1 b := by
  unfold transit_score_value
  refine round1_mono (min_le_min le_rfl ?_)
  have hbase := transit_base_mono hseg h
  have hden := transit_density_mono h
  linarith

/-- C3: every score `calculate_transit_score` returns on non-falsy coordinates
lies in [0, 100] and is an integer number of tenths, and, holding the corridor
distance fixed, the score is non-increasing in the distance to downtown within
each linear segment of the distance component. -/
theorem transit_score_range_and_segment_mono :
    (∀ (dist : ℚ → ℚ → ℚ → ℚ → ℚ) (lat lon : Option ℚ) (v : ℚ),
        calculate_transit_score dist lat lon = some v →
        (0 ≤ v ∧ v ≤ 100) ∧ ∃ n : ℤ, v = (n : ℚ) / 10)
  ∧ (∀ (b d1 d2 : ℚ), same_dist_segment d1 d2 → d1 ≤ d2 →
        transit_score_value d2 b ≤ transit_score_value d1 b) := by
  constructor
  · intro dist lat lon v hv
    cases lat with
    | none => simp [calculate_transit_score] at hv
    | some la =>
      cases lon with
      | none => simp [calculate_transit_score] at hv
      | some lo =>
        by_cases hg : la = 0 ∨ lo = 0
        · simp [calculate_transit_score, hg] at hv
        · simp only [calculate_transit_score, if_neg hg, Option.some.injEq] at hv
          subst hv
          refine ⟨transit_score_value_range _ _, ?_⟩
          unfold transit_score_value
          exact round1_tenth _
  · intro b d1 d2 hseg h
    exact transit_score_value_mono hseg h

/-- Witness for C3: a concrete instance of the range conjunct at the constant
zero distance oracle, and of the monotonicity conjunct inside the 3-6 mile
segment. -/
theorem transit_score_range_and_segment_mono_witness :
    (((0:ℚ) ≤ transit_score_value 0 0 ∧ transit_score_value 0 0 ≤ 100)
      ∧ ∃ n : ℤ, transit_score_value 0 0 = (n : ℚ) / 10)
  ∧ transit_score_value 5 0 ≤ transit_score_value 4 0 :=
  ⟨(transit_score_range_and_segment_mono).1 (fun _ _ _ _ => 0) (some 1) (some 1)
      (transit_score_value 0 0) rfl,
   (transit_score_range_and_segment_mono).2 0 4 5
      (Or.inr (Or.inr (Or.inl (by norm_num)))) (by norm_num)⟩

/-- When no center qualifies, the zip loop leaves its accumulator unchanged. -/
theorem zipFold_id_of_no_qual (lat lng : ℚ) (l : List (String × ℚ × ℚ × ℚ)) :
    ∀ (acc : Option (String × ℚ)),
      (∀ c ∈ l, ¬ zipSqDist lat lng c < c.2.2.2 ^ 2) → zipFold lat lng l acc = acc := by
  induction l with
  | nil => intro acc _; rfl
  | cons c rest ih =>
    intro acc h
    simp only [zipFold]
    rw [if_neg]
    · exact ih acc (fun a ha => h a (List.mem_cons_of_mem _ ha))
    · intro hcontra
      exact h c (List.mem_cons_self c rest) hcontra.1

/-- Once the zip loop holds a best candidate it never returns to `none`. -/
theorem zipFold_isSome_of_isSome (lat lng : ℚ) (l : List (String × ℚ × ℚ × ℚ)) :
    ∀ (b : String × ℚ), ∃ b2, zipFold lat lng l (some b) = some b2 := by
  induction l with
  | nil => intro b; exact ⟨b, rfl⟩
  | cons c rest ih =>
    intro b
    simp only [zipFold]
    split
    · exact ih _
    · exact ih b

/-- A `none` outcome of the zip loop means the accumulator was `none` and no
center of the list came strictly within its own radius. -/
theorem zipFold_none_char (lat lng : ℚ) (l : List (String × ℚ × ℚ × ℚ)) :
    ∀ (acc : Option (String × ℚ)), zipFold lat lng l acc = none →
      acc = none ∧ ∀ c ∈ l, ¬ zipSqDist lat lng c < c.2.2.2 ^ 2 := by
  induction l with
  | nil => intro acc h; exact ⟨h, by simp⟩
  | cons c rest ih =>
    intro acc h
    simp only [zipFold] at h
    by_cases hcond : zipSqDist lat lng c < c.2.2.2 ^ 2 ∧ ∀ b ∈ acc, zipSqDist lat lng c < b.2
    · rw [if_pos hcond] at h
      obtain ⟨b2, hb2⟩ := zipFold_isSome_of_isSome lat lng rest (c.1, zipSqDist lat lng c)
      rw [h] at hb2
      exact absurd hb2 (by simp)
    · rw [if_neg hcond] at h
      obtain ⟨ha, hrest⟩ := ih acc h
      subst ha
      refine ⟨rfl, ?_⟩
      intro a ha
      rcases List.mem_cons.mp ha with rfl | hmem
      · intro hq
        exact hcond ⟨hq, by simp⟩
      · exact hrest a hmem

/-- A `some` outcome of the zip loop is either the untouched accumulator,
already at least as close as every qualifying center of the list, or the first
center of the list achieving the qualifying minimum: it beats the accumulator
and every earlier qualifying center strictly, and every later qualifying
center weakly. -/
theorem zipFold_some_char (lat lng : ℚ) (l : List (String × ℚ × ℚ × ℚ)) :
    ∀ (acc : Option (String × ℚ)) (z : String) (d : ℚ),
      zipFold lat lng l acc = some (z, d) →
      (acc = some (z, d) ∧ ∀ c ∈ l, zipSqDist lat lng c < c.2.2.2 ^ 2 → d ≤ zipSqDist lat lng c)
      ∨ (∃ pre c post, l = pre ++ c :: post ∧ c.1 = z ∧ zipSqDist lat lng c = d
          ∧ zipSqDist lat lng c < c.2.2.2 ^ 2
          ∧ (∀ b, acc = some b → d < b.2)
          ∧ (∀ a ∈ pre, zipSqDist lat lng a < a.2.2.2 ^ 2 → d < zipSqDist lat lng a)
          ∧ (∀ a ∈ post, zipSqDist lat lng a < a.2.2.2 ^ 2 → d ≤ zipSqDist lat lng a)) := by
  induction l with
  | nil => intro acc z d h; exact Or.inl ⟨h, by simp⟩
  | cons c rest ih =>
    intro acc z d h
    simp only [zipFold] at h
    by_cases hcond : zipSqDist lat lng c < c.2.2.2 ^ 2 ∧ ∀ b ∈ acc, zipSqDist lat lng c < b.2
    · rw [if_pos hcond] at h
      rcases ih (some (c.1, zipSqDist lat lng c)) z d h with
        ⟨heq, hall⟩ | ⟨pre, c2, post, hl, hname, hd, hqual, haccb, hpre, hpost⟩
      · obtain ⟨h1, h2⟩ := Prod.ext_iff.mp (Option.some.inj heq)
        refine Or.inr ⟨[], c, rest, rfl, h1, h2, hcond.1, ?_, by simp, ?_⟩
        · intro b hb
          have hcb := hcond.2 b (Option.mem_def.mpr hb)
          have h2' : zipSqDist lat lng c = d := h2
          linarith
        · exact hall
      · have hdc : d < zipSqDist lat lng c := by
          simpa using haccb (c.1, zipSqDist lat lng c) rfl
        refine Or.inr ⟨c :: pre, c2, post, by rw [hl, List.cons_append], hname, hd, hqual, ?_, ?_, hpost⟩
        · intro b hb
          have := hcond.2 b (Option.mem_def.mpr hb)
          linarith
        · intro a ha hq
          rcases List.mem_cons.mp ha with rfl | hmem
          · exact hdc
          · exact hpre a hmem hq
    · rw [if_neg hcond] at h
      rcases ih acc z d h with
        ⟨heq, hall⟩ | ⟨pre, c2, post, hl, hname, hd, hqual, haccb, hpre, hpost⟩
      · refine Or.inl ⟨heq, ?_⟩
        intro a ha hq
        rcases List.mem_cons.mp ha with rfl | hmem
        · by_contra hlt
          push_neg at hlt
          apply hcond
          refine ⟨hq, ?_⟩
          intro b hb
          rw [heq] at hb
          have hbd : (z, d) = b := by simpa using hb
          rw [← hbd]
          exact hlt
        · exact hall a hmem hq
      · refine Or.inr ⟨c :: pre, c2, post, by rw [hl, List.cons_append], hname, hd, hqual, haccb, ?_, hpost⟩
        intro a ha hq
        rcases List.mem_cons.mp ha with rfl | hmem
        · have hnot : ¬ ∀ b ∈ acc, zipSqDist lat lng a < b.2 := fun hb => hcond ⟨hq, hb⟩
          push_neg at hnot
          obtain ⟨b, hbmem, hble⟩ := hnot
          have := haccb b (Option.mem_def.mp hbmem)
          linarith
        · exact hpre a hmem hq

/-- C4: `get_zip_for_coords` returns `None` on falsy or missing coordinates
and whenever the point lies outside every center's own radius (strict
comparison of the degree-space distance against the radius); any returned zip
comes from a qualifying center of minimum distance, and that center is the
first minimum in table order (every earlier qualifying center is strictly
farther). -/
theorem get_zip_nearest_qualifying_center (lat lng : Option ℚ) :
    ((lat = none ∨ lat = some 0 ∨ lng = none ∨ lng = some 0) →
      get_zip_for_coords lat lng = none)
  ∧ (∀ la ln, lat = some la → lng = some ln → la ≠ 0 → ln ≠ 0 →
      ((∀ c ∈ ZIP_CODE_CENTERS, ¬ zipSqDist la ln c < c.2.2.2 ^ 2) →
          get_zip_for_coords lat lng = none)
      ∧ (∀ z, get_zip_for_coords lat lng = some z →
          ∃ pre c post, ZIP_CODE_CENTERS = pre ++ c :: post ∧ c.1 = z
            ∧ zipSqDist la ln c < c.2.2.2 ^ 2
            ∧ (∀ a ∈ ZIP_CODE_CENTERS, zipSqDist la ln a < a.2.2.2 ^ 2 →
                zipSqDist la ln c ≤ zipSqDist la ln a)
            ∧ (∀ a ∈ pre, zipSqDist la ln a < a.2.2.2 ^ 2 →
                zipSqDist la ln c < zipSqDist la ln a))) := by
  constructor
  · intro h
    rcases h with h | h | h | h
    · subst h; cases lng <;> simp [get_zip_for_coords]
    · subst h; cases lng <;> simp [get_zip_for_coords]
    · subst h; cases lat <;> simp [get_zip_for_coords]
    · subst h; cases lat <;> simp [get_zip_for_coords]
  · intro la ln hla hln ha0 hn0
    subst hla
    subst hln
    have hguard : ¬ (la = 0 ∨ ln = 0) := by tauto
    constructor
    · intro hnone
      simp only [get_zip_for_coords, if_neg hguard]
      rw [zipFold_id_of_no_qual la ln ZIP_CODE_CENTERS none hnone]
      rfl
    · intro z hz
      simp only [get_zip_for_coords, if_neg hguard] at hz
      obtain ⟨⟨z1, d⟩, hfold, hz1⟩ := Option.map_eq_some'.mp hz
      simp only at hz1
      subst hz1
      rcases zipFold_some_char la ln ZIP_CODE_CENTERS none z1 d hfold with
        ⟨heq, _⟩ | ⟨pre, c, post, hl, hname, hd, hqual, _, hpre, hpost⟩
      · exact absurd heq (by simp)
      · refine ⟨pre, c, post, hl, hname, hqual, ?_, ?_⟩
        · intro a ha hq
          rw [hl] at ha
          rcases List.mem_append.mp ha with hmem | hmem
          · have := hpre a hmem hq
            rw [hd]
            linarith
          · rcases List.mem_cons.mp hmem with rfl | hmem2
            · exact le_refl _
            · have := hpost a hmem2 hq
              rw [hd]
              linarith
        · intro a ha hq
          have := hpre a ha hq
          rw [hd]
          linarith

/-- Witness for C4 at a falsy latitude and at a point outside every center
radius. -/
theorem get_zip_nearest_qualifying_center_witness :
    get_zip_for_coords (some 0) (some 5) = none
  ∧ get_zip_for_coords (some 1) (some 1) = none :=
  ⟨(get_zip_nearest_qualifying_center (some 0) (some 5)).1 (Or.inr (Or.inl rfl)),
   ((get_zip_nearest_qualifying_center (some 1) (some 1)).2 1 1 rfl rfl
      (by norm_num) (by norm_num)).1
     (by
       intro c hc
       simp only [ZIP_CODE_CENTERS, List.mem_cons, List.not_mem_nil, or_false] at hc
       rcases hc with rfl | rfl | rfl | rfl | rfl | rfl | rfl | rfl | rfl | rfl | rfl | rfl |
         rfl | rfl | rfl <;>
         norm_num [zipSqDist])⟩
